import Mathlib

/-!
Verification of the release packaging script `build.py` of
Pulsoid-Widget-to-VRChat-OSC.

The script copies a fixed include list of files/directories from the
script's own directory into a fresh temporary staging directory, zips the
staging directory into `PulsoidWidget-to-OSC-v<version>.zip` in the parent
directory of the script's directory, and removes the temporary directory on
every exit path (the `with tempfile.TemporaryDirectory()` block).

Shallow embedding choices:
* A filesystem path is a `List String` of components; `Path.parent` is
  `List.dropLast`.
* An include-list entry found on disk is an `Entry`: either a file with an
  abstract content, or a directory carried extensionally as the list of all
  files in its tree (relative path ↦ content).  This is exactly the
  observable that `shutil.copytree` (recursive copy) and zip creation
  preserve, which is all `build.py` does with a directory.
* The machine state touched by one run is: the children of the script's
  directory (read-only), the file at the target zip path (`Option`), and
  the fresh temporary directory (`Option`, `none` = does not exist).
* I/O primitives can fail (an `OSError` propagating out of the `with`
  block).  A run is parameterised by a fault schedule `fault : Nat → Bool`;
  the fallible operations of a run are numbered in program order
  (0 = `TemporaryDirectory()`, 1 = `temp_path.mkdir()`, `2+i` = the copy of
  include item `i`, `2+|INCLUDE|` = `zip_path.unlink()`,
  `3+|INCLUDE|` = `shutil.make_archive`), and operation `k` raises iff
  `fault k = true`.  `noFault` is the schedule on which nothing raises.
* Console output is modelled as a list of printed lines (the trailing
  size report, a floating-point format, is not modelled).
-/

/-- Abstract file content. -/
abbrev Content := Nat

/-- A filesystem path as a list of components. -/
abbrev FsPath := List String

/-- An entry of the script's directory, as `build.py` observes it:
`src.is_dir()` distinguishes the constructors; a directory is carried
extensionally as the recursive listing of the files in its tree
(path relative to the directory ↦ content), the observable preserved by
`shutil.copytree` and by zipping. -/
inductive Entry where
  | file : Content → Entry
  | dir : List (FsPath × Content) → Entry
deriving DecidableEq, Repr

/-- All files inside an entry, as (relative path, content) pairs: a plain
file is the single file at the empty relative path; a directory contributes
every file of its tree. -/
def filesOfEntry : Entry → List (FsPath × Content)
  | .file c => [([], c)]
  | .dir fs => fs

/-- The fixed include list `INCLUDE` of `build.py`. -/
def INCLUDE : List String :=
  [ "code",
    "LICENSE",
    "README.md",
    "OSC_CONFIG_README.md",
    "osc_parameters.json",
    "package.json",
    "package-lock.json",
    "pulsoid_widget_osc.vrmanifest",
    "run.bat",
    "widget_id.txt.template" ]

/-- `zip_name = f"PulsoidWidget-to-OSC-v{version}"` (build.py line 43). -/
def zip_name (version : String) : String :=
  "PulsoidWidget-to-OSC-v" ++ version

/-- `zip_path = output_dir / f"{zip_name}.zip"` where
`output_dir = script_dir.parent` (build.py lines 41-44). -/
def zip_path (script_dir : FsPath) (version : String) : FsPath :=
  script_dir.dropLast ++ [zip_name version ++ ".zip"]

/-- Outcome of a run: normal return of a path, or a propagated exception. -/
inductive Outcome where
  | ok : FsPath → Outcome
  | raised : Outcome
deriving DecidableEq, Repr

/-- The machine state a run of `build_release` can change: the file at the
target `zip_path` (as its list of zip members: full path in the archive ↦
content), the fresh temporary directory (`none` = absent; `some staging` =
present, with `staging` the children of the `zip_name` subdirectory), and
the console output so far. -/
structure RunState where
  archive : Option (List (FsPath × Content))
  temp : Option (List (String × Entry))
  log : List String
deriving DecidableEq, Repr

/-- Result of a run of `build_release`. -/
structure BuildResult where
  outcome : Outcome
  state : RunState
deriving DecidableEq, Repr

/-- The two `[BUILD]` lines printed before any filesystem operation
(build.py lines 46-47). -/
def startLog (script_dir : FsPath) (version : String) : List String :=
  [ "[BUILD] Creating release v" ++ version,
    "[BUILD] Output: " ++ String.intercalate "/" (zip_path script_dir version) ]

/-- The `[WARN] Missing: {item}` line (build.py line 60). -/
def warnMsg (item : String) : String :=
  "[WARN] Missing: " ++ item

/-- The `[OK] Copied ...` line for an item (build.py lines 65 and 68). -/
def okMsg (e : Entry) (item : String) : String :=
  match e with
  | .dir _ => "[OK] Copied directory: " ++ item
  | .file _ => "[OK] Copied file: " ++ item

/-- The `for item in INCLUDE` copy loop (build.py lines 55-68).
`source` is the children of `script_dir`; looking an item up models
`(script_dir / item).exists()`.  A missing item prints a warning and is
skipped; an existing one is copied (`shutil.copytree` for a directory,
`shutil.copy2` for a file) into the staging directory under its own name,
unless the fault schedule makes that copy raise, in which case the
exception propagates (`.error` carries the console output at that point).
`i` is the operation number of the copy of the current item. -/
def copyItems (source : List (String × Entry)) (fault : Nat → Bool) :
    Nat → List String → List (String × Entry) → List String →
    Except (List String) (List (String × Entry) × List String)
  | _, [], staging, log => .ok (staging, log)
  | i, item :: rest, staging, log =>
    match (List.lookup item source : Option Entry) with
    | none => copyItems source fault (i + 1) rest staging (log ++ [warnMsg item])
    | some e =>
      if fault i then .error log
      else copyItems source fault (i + 1) rest (staging ++ [(item, e)])
        (log ++ [okMsg e item])

/-- The members of the zip produced by
`shutil.make_archive(str(output_dir / zip_name), 'zip', temp_dir, zip_name)`
(build.py lines 74-79): archiving `temp_dir` with base directory `zip_name`
stores every file of the staging tree under the single top-level directory
`zip_name`, so a file at relative path `p` inside copied item `item` gets
archive path `zip_name / item / p`. -/
def make_archive_contents (zname : String) (staging : List (String × Entry)) :
    List (FsPath × Content) :=
  staging.flatMap (fun ie =>
    (filesOfEntry ie.2).map (fun pc => (zname :: ie.1 :: pc.1, pc.2)))

/-- `build_release(version)` (build.py lines 39-83) over the machine state:
`script_dir` the script's directory path, `source` its children, `archive0`
the pre-existing file at `zip_path` (if any), `fault` the fault schedule.
Every exit out of the `with tempfile.TemporaryDirectory()` block — normal
or exceptional — removes the temporary directory (`temp := none`). -/
def build_release (script_dir : FsPath) (version : String)
    (source : List (String × Entry))
    (archive0 : Option (List (FsPath × Content)))
    (fault : Nat → Bool) : BuildResult :=
  -- op 0: `tempfile.TemporaryDirectory()`; if creation itself fails the
  -- temporary directory never existed
  if fault 0 then ⟨.raised, archive0, none, startLog script_dir version⟩
  -- op 1: `temp_path.mkdir()`; on a raise the `with` block removes temp
  else if fault 1 then ⟨.raised, archive0, none, startLog script_dir version⟩
  else
    match copyItems source fault 2 INCLUDE [] (startLog script_dir version) with
    | .error lg =>
      -- a copy raised: cleanup runs, the target archive is untouched
      ⟨.raised, archive0, none, lg⟩
    | .ok (staging, lg) =>
      -- `if zip_path.exists(): zip_path.unlink()` (op 2 + |INCLUDE|)
      match archive0 with
      | some _ =>
        if fault (2 + INCLUDE.length) then ⟨.raised, archive0, none, lg⟩
        -- op 3 + |INCLUDE|: `shutil.make_archive`; the old archive is
        -- already unlinked when it runs
        else if fault (3 + INCLUDE.length) then ⟨.raised, none, none, lg⟩
        else ⟨.ok (zip_path script_dir version),
          some (make_archive_contents (zip_name version) staging), none,
          lg ++ ["[BUILD] Done! Created: " ++
            String.intercalate "/" (zip_path script_dir version)]⟩
      | none =>
        if fault (3 + INCLUDE.length) then ⟨.raised, none, none, lg⟩
        else ⟨.ok (zip_path script_dir version),
          some (make_archive_contents (zip_name version) staging), none,
          lg ++ ["[BUILD] Done! Created: " ++
            String.intercalate "/" (zip_path script_dir version)]⟩

/-- The fault schedule on which every filesystem operation succeeds. -/
def noFault : Nat → Bool := fun _ => false

/-- The state of the `package.json` file beside the script, as
`get_version_from_package` observes it: absent (`open` raises
`FileNotFoundError`), present but not valid JSON (`json.load` raises), or
parsed into its string fields. -/
inductive PkgFile where
  | absent
  | malformed
  | parsed : List (String × String) → PkgFile
deriving DecidableEq, Repr

/-- `get_version_from_package()` (build.py lines 32-37): opens
`package.json` beside the script — raising if it is missing or malformed,
there is no guard — and returns `data.get("version", "0.0.0")`. -/
def get_version_from_package (pkg : PkgFile) : Except String String :=
  match pkg with
  | .absent => .error "FileNotFoundError"
  | .malformed => .error "JSONDecodeError"
  | .parsed fields => .ok ((List.lookup "version" fields).getD "0.0.0")

/-- Version resolution in `main()` (build.py lines 86-90): a command-line
argument, when present, is used verbatim; otherwise the version comes from
`get_version_from_package()`. -/
def resolve_version (arg : Option String) (pkg : PkgFile) :
    Except String String :=
  match arg with
  | some v => .ok v
  | none => get_version_from_package pkg

namespace BuildPy

/-- `main()` (build.py lines 85-92): resolve the version, then run
`build_release`; an exception from version resolution propagates before any
filesystem effect. -/
def main (arg : Option String) (pkg : PkgFile) (script_dir : FsPath)
    (source : List (String × Entry))
    (archive0 : Option (List (FsPath × Content)))
    (fault : Nat → Bool) : Except String BuildResult :=
  (resolve_version arg pkg).map
    (fun version => build_release script_dir version source archive0 fault)

end BuildPy

/-- The staging directory contents after a fault-free copy loop over
`items`: each item found among `source` in order, under its own name. -/
def stagingOf (source : List (String × Entry)) (items : List String) :
    List (String × Entry) :=
  items.filterMap (fun item =>
    (List.lookup item source).map (fun e => (item, e)))

/-- The console lines the copy loop prints on a fault-free run. -/
def copyLog (source : List (String × Entry)) (items : List String) :
    List String :=
  items.map (fun item =>
    match List.lookup item source with
    | none => warnMsg item
    | some e => okMsg e item)

/-- The console output of a complete fault-free run. -/
def fullLog (script_dir : FsPath) (version : String)
    (source : List (String × Entry)) : List String :=
  startLog script_dir version ++ copyLog source INCLUDE ++
    ["[BUILD] Done! Created: " ++ String.intercalate "/" (zip_path script_dir version)]

/-- When no consulted fault index fires, the copy loop returns normally,
appending to the staging directory exactly the include items found among
`source`, in order, and printing one line per item. -/
lemma copyItems_ok_of_fault_free (source : List (String × Entry))
    (fault : Nat → Bool) :
    ∀ (items : List String) (i : Nat) (staging : List (String × Entry))
      (log : List String),
      (∀ j, j < items.length → fault (i + j) = false) →
      copyItems source fault i items staging log
        = .ok (staging ++ stagingOf source items, log ++ copyLog source items) := by
  intro items
  induction items with
  | nil => intro i staging log _; simp [copyItems, stagingOf, copyLog]
  | cons item rest ih =>
    intro i staging log hf
    have hi : fault i = false := by simpa using hf 0 (by simp)
    have hrest : ∀ j, j < rest.length → fault (i + 1 + j) = false := by
      intro j hj
      have := hf (j + 1) (by simpa using Nat.succ_lt_succ hj)
      simpa [Nat.add_assoc, Nat.add_comm 1 j] using this
    unfold copyItems
    cases hl : (List.lookup item source : Option Entry) with
    | none =>
      rw [ih (i + 1) staging (log ++ [warnMsg item]) hrest]
      simp [stagingOf, copyLog, hl]
    | some e =>
      rw [hi]
      simp only [Bool.false_eq_true, if_false]
      rw [ih (i + 1) (staging ++ [(item, e)]) (log ++ [okMsg e item]) hrest]
      simp [stagingOf, copyLog, hl]

/-- A fault-free run of `build_release`: returns the zip path, writes the
archive of the staged include items at the target path, leaves no temporary
directory, and prints the full log. -/
lemma build_release_noFault (script_dir : FsPath) (version : String)
    (source : List (String × Entry))
    (archive0 : Option (List (FsPath × Content))) :
    build_release script_dir version source archive0 noFault
      = ⟨.ok (zip_path script_dir version),
         some (make_archive_contents (zip_name version) (stagingOf source INCLUDE)),
         none,
         fullLog script_dir version source⟩ := by
  unfold build_release
  simp only [noFault, Bool.false_eq_true, if_false]
  rw [copyItems_ok_of_fault_free source noFault INCLUDE 2 []
    (startLog script_dir version) (fun _ _ => rfl)]
  cases archive0 <;> simp [fullLog]

/-- Membership in the staging directory built by a fault-free copy loop. -/
lemma mem_stagingOf {source : List (String × Entry)} {items : List String}
    {item : String} {e : Entry} :
    (item, e) ∈ stagingOf source items
      ↔ item ∈ items ∧ List.lookup item source = some e := by
  simp only [stagingOf, List.mem_filterMap, Option.map_eq_some',
    Prod.mk.injEq]
  constructor
  · rintro ⟨a, ha, e', hl, rfl, rfl⟩
    exact ⟨ha, hl⟩
  · rintro ⟨hi, hl⟩
    exact ⟨item, hi, e, hl, rfl, rfl⟩

/-- C1: every run of `build_release` with version `v` returns the path
whose directory is the parent of the script's directory and whose filename
is exactly `PulsoidWidget-to-OSC-v<v>.zip`, and the archive is written at
that path (the `archive` field of the final state, which models the file at
`zip_path`, is populated). -/
theorem c1_archive_name_location_return (script_dir : FsPath)
    (version : String) (source : List (String × Entry))
    (archive0 : Option (List (FsPath × Content))) :
    (build_release script_dir version source archive0 noFault).outcome
      = .ok (script_dir.dropLast ++
          ["PulsoidWidget-to-OSC-v" ++ version ++ ".zip"])
    ∧ ((build_release script_dir version source archive0 noFault).state.archive).isSome
      = true := by
  rw [build_release_noFault]
  exact ⟨rfl, rfl⟩

/-- C4: whatever the fault schedule — the run may return normally or raise
at any of its filesystem operations — the temporary staging directory does
not exist once `build_release` completes. -/
theorem c4_temp_dir_always_removed (script_dir : FsPath) (version : String)
    (source : List (String × Entry))
    (archive0 : Option (List (FsPath × Content))) (fault : Nat → Bool) :
    (build_release script_dir version source archive0 fault).state.temp
      = none := by
  unfold build_release
  cases fault 0 with
  | true => rfl
  | false =>
  cases fault 1 with
  | true => rfl
  | false =>
  cases copyItems source fault 2 INCLUDE [] (startLog script_dir version) with
  | error lg => rfl
  | ok r =>
    obtain ⟨staging, lg⟩ := r
    cases archive0 with
    | none =>
      cases fault (3 + INCLUDE.length) <;> rfl
    | some z =>
      cases fault (2 + INCLUDE.length) with
      | true => rfl
      | false => cases fault (3 + INCLUDE.length) <;> rfl

/-- C5: a command-line version argument is used verbatim: with the same
argument, two runs over any two metadata-file states (present with any
fields, malformed, or absent) resolve to that very string and produce
identical results — the metadata file has no effect. -/
theorem c5_arg_overrides_metadata (arg : String) (pkg₁ pkg₂ : PkgFile)
    (script_dir : FsPath) (source : List (String × Entry))
    (archive0 : Option (List (FsPath × Content))) (fault : Nat → Bool) :
    resolve_version (some arg) pkg₁ = .ok arg
    ∧ BuildPy.main (some arg) pkg₁ script_dir source archive0 fault
        = BuildPy.main (some arg) pkg₂ script_dir source archive0 fault
    ∧ BuildPy.main (some arg) pkg₁ script_dir source archive0 fault
        = .ok (build_release script_dir arg source archive0 fault) := by
  exact ⟨rfl, rfl, rfl⟩

/-- C6: with no command-line argument the version comes from the `version`
field of the `package.json` beside the script: if the parsed file has the
field its value is used, and if the field is absent the version defaults to
`"0.0.0"`. -/
theorem c6_version_from_package_json (fields : List (String × String)) :
    resolve_version none (.parsed fields)
      = .ok ((List.lookup "version" fields).getD "0.0.0")
    ∧ (∀ s, List.lookup "version" fields = some s →
        resolve_version none (.parsed fields) = .ok s)
    ∧ (List.lookup "version" fields = none →
        resolve_version none (.parsed fields) = .ok "0.0.0") := by
    refine ⟨rfl, ?_, ?_⟩
    · intro s hs
      simp [resolve_version, get_version_from_package, hs]
    · intro hn
      simp [resolve_version, get_version_from_package, hn]

/-- Witness for C6 at a concrete metadata file: with `version` present the
field's value is used; with the field absent the version is `0.0.0`. -/
theorem c6_version_from_package_json_witness :
    resolve_version none (.parsed [("version", "2.0.0")]) = .ok "2.0.0"
    ∧ resolve_version none (.parsed [("name", "pulsoid-widget")])
        = .ok "0.0.0" := by
  exact ⟨(c6_version_from_package_json [("version", "2.0.0")]).2.1 "2.0.0"
      (by decide),
    (c6_version_from_package_json [("name", "pulsoid-widget")]).2.2
      (by decide)⟩

/-- C8 counterexample: with no version argument and the metadata file
absent, version resolution raises (`open` propagates `FileNotFoundError`),
contradicting the claim that no error is raised. -/
theorem c8_counterexample :
    resolve_version none PkgFile.absent = .error "FileNotFoundError" := rfl

/-- C8 amended: when no version argument is given and the metadata file is
missing or malformed, version resolution raises — the open/parse error
propagates uncaught (there is no guard in `get_version_from_package`); only
a successfully parsed file lacking the `version` field silently defaults to
`"0.0.0"`. -/
theorem c8_missing_metadata_raises (fields : List (String × String)) :
    resolve_version none PkgFile.absent = .error "FileNotFoundError"
    ∧ resolve_version none PkgFile.malformed = .error "JSONDecodeError"
    ∧ (List.lookup "version" fields = none →
        resolve_version none (.parsed fields) = .ok "0.0.0") := by
  refine ⟨rfl, rfl, ?_⟩
  intro hn
  simp [resolve_version, get_version_from_package, hn]

/-- C2: an include-list entry found in the script's directory has every
one of its files (itself, for a plain file; every file of its tree, for a
directory) in the produced archive, at the same path relative to the
archive's base directory as it had relative to the script's directory. -/
theorem c2_included_files_in_archive (script_dir : FsPath) (version : String)
    (source : List (String × Entry))
    (archive0 : Option (List (FsPath × Content)))
    (item : String) (e : Entry) (p : FsPath) (c : Content)
    (hitem : item ∈ INCLUDE) (hsrc : List.lookup item source = some e)
    (hfile : (p, c) ∈ filesOfEntry e) :
    (zip_name version :: item :: p, c)
      ∈ ((build_release script_dir version source archive0
          noFault).state.archive.getD []) := by
  rw [build_release_noFault]
  simp only [Option.getD_some, make_archive_contents, List.mem_flatMap]
  refine ⟨(item, e), mem_stagingOf.2 ⟨hitem, hsrc⟩, ?_⟩
  simp only [List.mem_map]
  exact ⟨(p, c), hfile, rfl⟩

/-- Witness for C2: the file `code/widget.js` of the existing include
directory `code` appears in the archive at
`PulsoidWidget-to-OSC-v1.1.1/code/widget.js`. -/
theorem c2_included_files_in_archive_witness :
    "code" ∈ INCLUDE
    ∧ List.lookup "code" [("code", Entry.dir [(["widget.js"], 7)])]
        = some (Entry.dir [(["widget.js"], 7)])
    ∧ (["widget.js"], (7 : Content))
        ∈ filesOfEntry (Entry.dir [(["widget.js"], 7)])
    ∧ (zip_name "1.1.1" :: "code" :: ["widget.js"], (7 : Content))
        ∈ ((build_release ["Z:", "Hearttrate", "widget"] "1.1.1"
            [("code", Entry.dir [(["widget.js"], 7)])] none
            noFault).state.archive.getD []) :=
  ⟨by decide, by decide, by decide,
    c2_included_files_in_archive ["Z:", "Hearttrate", "widget"] "1.1.1"
      [("code", Entry.dir [(["widget.js"], 7)])] none
      "code" (Entry.dir [(["widget.js"], 7)]) ["widget.js"] 7
      (by decide) (by decide) (by decide)⟩

/-- C3: an include-list entry absent from the script's directory makes the
run print the `[WARN] Missing:` line for it and skip it; the run still
returns normally with the zip path, and no archive member lies under that
entry's name. -/
theorem c3_missing_item_warned_and_skipped (script_dir : FsPath)
    (version : String) (source : List (String × Entry))
    (archive0 : Option (List (FsPath × Content))) (item : String)
    (hitem : item ∈ INCLUDE) (hmiss : List.lookup item source = none) :
    (build_release script_dir version source archive0 noFault).outcome
      = .ok (zip_path script_dir version)
    ∧ warnMsg item
        ∈ (build_release script_dir version source archive0 noFault).state.log
    ∧ ∀ rest c, (zip_name version :: item :: rest, c)
        ∉ ((build_release script_dir version source archive0
            noFault).state.archive.getD []) := by
  rw [build_release_noFault]
  refine ⟨rfl, ?_, ?_⟩
  · simp only [fullLog, List.mem_append]
    left; right
    simp only [copyLog, List.mem_map]
    exact ⟨item, hitem, by rw [hmiss]⟩
  · intro rest c hmem
    simp only [Option.getD_some, make_archive_contents, List.mem_flatMap,
      List.mem_map] at hmem
    obtain ⟨⟨it, e⟩, hst, pc, _, heq⟩ := hmem
    have hlk := (mem_stagingOf.1 hst).2
    simp only [Prod.mk.injEq, List.cons.injEq, true_and] at heq
    rw [heq.1.1] at hlk
    rw [hmiss] at hlk
    exact Option.noConfusion hlk

/-- Witness for C3: with an empty script directory the entry `code` is
missing; the run still returns the zip path, warns about `code`, and the
archive holds nothing under it. -/
theorem c3_missing_item_warned_and_skipped_witness :
    "code" ∈ INCLUDE
    ∧ List.lookup "code" ([] : List (String × Entry)) = none
    ∧ ((build_release ["Z:", "Hearttrate", "widget"] "1.0.0" [] none
          noFault).outcome
        = .ok (zip_path ["Z:", "Hearttrate", "widget"] "1.0.0")
      ∧ warnMsg "code"
          ∈ (build_release ["Z:", "Hearttrate", "widget"] "1.0.0" [] none
              noFault).state.log
      ∧ ∀ rest c, (zip_name "1.0.0" :: "code" :: rest, c)
          ∉ ((build_release ["Z:", "Hearttrate", "widget"] "1.0.0" [] none
              noFault).state.archive.getD [])) :=
  ⟨by decide, rfl,
    c3_missing_item_warned_and_skipped ["Z:", "Hearttrate", "widget"]
      "1.0.0" [] none "code" (by decide) rfl⟩

/-- C9: every member of the produced archive lies under the single
top-level directory `PulsoidWidget-to-OSC-v<version>` — its path is
`zip_name :: item :: rest` for some include-list item. -/
theorem c9_members_under_single_top_dir (script_dir : FsPath)
    (version : String) (source : List (String × Entry))
    (archive0 : Option (List (FsPath × Content))) (p : FsPath) (c : Content)
    (h : (p, c) ∈ ((build_release script_dir version source archive0
        noFault).state.archive.getD [])) :
    ∃ item rest, item ∈ INCLUDE ∧ p = zip_name version :: item :: rest := by
  rw [build_release_noFault] at h
  simp only [Option.getD_some, make_archive_contents, List.mem_flatMap,
    List.mem_map] at h
  obtain ⟨⟨it, e⟩, hst, pc, _, heq⟩ := h
  exact ⟨it, pc.1, (mem_stagingOf.1 hst).1, (congrArg Prod.fst heq).symm⟩

/-- Witness for C9: in a run packaging the single file `LICENSE`, its
archive member lies under the top-level `PulsoidWidget-to-OSC-v1.0.0`. -/
theorem c9_members_under_single_top_dir_witness :
    ((zip_name "1.0.0" :: "LICENSE" :: [], (2 : Content))
        ∈ ((build_release ["Z:", "Hearttrate", "widget"] "1.0.0"
            [("LICENSE", Entry.file 2)] none
            noFault).state.archive.getD []))
    ∧ ∃ item rest, item ∈ INCLUDE
        ∧ zip_name "1.0.0" :: "LICENSE" :: []
            = zip_name "1.0.0" :: item :: rest :=
  ⟨by decide,
    c9_members_under_single_top_dir ["Z:", "Hearttrate", "widget"] "1.0.0"
      [("LICENSE", Entry.file 2)] none (zip_name "1.0.0" :: "LICENSE" :: [])
      2 (by decide)⟩

/-- C10: when a copy inside the loop raises (the run got past the creation
of the temporary directory, then an item's copy failed), the pre-existing
archive at the target path is exactly as before — its deletion only happens
after the loop — and the run raises. -/
theorem c10_copy_failure_preserves_existing_archive (script_dir : FsPath)
    (version : String) (source : List (String × Entry))
    (z : List (FsPath × Content)) (fault : Nat → Bool) (lg : List String)
    (h0 : fault 0 = false) (h1 : fault 1 = false)
    (hcopy : copyItems source fault 2 INCLUDE [] (startLog script_dir version)
      = .error lg) :
    (build_release script_dir version source (some z) fault).state.archive
      = some z
    ∧ (build_release script_dir version source (some z) fault).outcome
      = .raised := by
  unfold build_release
  rw [h0, h1, hcopy]
  exact ⟨rfl, rfl⟩

/-- Witness for C10: the copy of the (present) item `code` fails; the old
archive at the target path survives and the run raises. -/
theorem c10_copy_failure_preserves_existing_archive_witness :
    (fun i => decide (i = 2)) 0 = false
    ∧ copyItems [("code", Entry.file 0)] (fun i => decide (i = 2)) 2 INCLUDE
        [] (startLog ["Z:", "Hearttrate", "widget"] "1.1.1")
      = .error (startLog ["Z:", "Hearttrate", "widget"] "1.1.1")
    ∧ (build_release ["Z:", "Hearttrate", "widget"] "1.1.1"
        [("code", Entry.file 0)] (some [(["old.txt"], 1)])
        (fun i => decide (i = 2))).state.archive = some [(["old.txt"], 1)]
    ∧ (build_release ["Z:", "Hearttrate", "widget"] "1.1.1"
        [("code", Entry.file 0)] (some [(["old.txt"], 1)])
        (fun i => decide (i = 2))).outcome = .raised :=
  ⟨by decide, rfl,
    (c10_copy_failure_preserves_existing_archive ["Z:", "Hearttrate", "widget"]
      "1.1.1" [("code", Entry.file 0)] [(["old.txt"], 1)]
      (fun i => decide (i = 2)) (startLog ["Z:", "Hearttrate", "widget"] "1.1.1")
      (by decide) (by decide) rfl).1,
    (c10_copy_failure_preserves_existing_archive ["Z:", "Hearttrate", "widget"]
      "1.1.1" [("code", Entry.file 0)] [(["old.txt"], 1)]
      (fun i => decide (i = 2)) (startLog ["Z:", "Hearttrate", "widget"] "1.1.1")
      (by decide) (by decide) rfl).2⟩

/-- The fault schedule on which only `shutil.make_archive` raises. -/
def failAtMake : Nat → Bool := fun i => decide (i = 3 + INCLUDE.length)

/-- C7: re-running the build with the same version overwrites: the second
run's final archive is exactly the zip of the second run's source state
(whatever archive the first run left), never a merge; and the pre-existing
file at the target path is deleted before archive creation — if creation
itself then fails, the old archive is already gone. -/
theorem c7_rerun_overwrites_archive (script_dir : FsPath) (version : String)
    (source₁ source₂ : List (String × Entry))
    (a : Option (List (FsPath × Content))) (z : List (FsPath × Content)) :
    (build_release script_dir version source₂
        ((build_release script_dir version source₁ a noFault).state.archive)
        noFault).state.archive
      = some (make_archive_contents (zip_name version)
          (stagingOf source₂ INCLUDE))
    ∧ (build_release script_dir version source₂ (some z)
        failAtMake).state.archive = none := by
  constructor
  · rw [build_release_noFault]
  · unfold build_release
    rw [show failAtMake 0 = false from by decide,
      show failAtMake 1 = false from by decide]
    rw [copyItems_ok_of_fault_free source₂ failAtMake INCLUDE 2 []
      (startLog script_dir version) ?side]
    · rfl
    case side =>
      intro j hj
      have hlen : INCLUDE.length = 10 := rfl
      rw [hlen] at hj
      simp only [failAtMake, hlen, decide_eq_false_iff_not]
      omega

/-- Witness for C8 (amended) at a concrete parsed file with no `version`
field. -/
theorem c8_missing_metadata_raises_witness :
    resolve_version none PkgFile.absent = .error "FileNotFoundError"
    ∧ resolve_version none (.parsed [("name", "pulsoid-widget")])
        = .ok "0.0.0" := by
  exact ⟨(c8_missing_metadata_raises [("name", "pulsoid-widget")]).1,
    (c8_missing_metadata_raises [("name", "pulsoid-widget")]).2.2 (by decide)⟩
